import Mathlib

/-!
Verification of the ALI Rural prospection repository.

The development shallowly embeds the two components of the repository:

* `src/src/etl/enrich_modulo_fiscal.py` — the enrichment job
  (`classificar_por_mf`, `main`), modelled by `classificar_por_mf`,
  `enrichRow`, `enrich` and `etlMain`;
* `src/app.py` — the query/report layer (formatting helpers, WHERE-clause
  construction, ordering, pagination, export gating, detail lookup),
  modelled by `fmt_int`, `fmt_float`, `buildWhere`, `prospQueryE`,
  `prospQueryB`, `can_export_all` and `det`.

Numeric values are modelled by `PValue`, an exact surrogate for the
IEEE doubles pandas works with: NaN, the two infinities and finite
values (finite values are exact rationals; binary rounding of finite
arithmetic is idealised away, NaN/infinity propagation and the special
cases of division follow IEEE semantics).  SQLite-resident numbers are
modelled by `SQLNum`: pandas `to_sql`/`read_sql` maps NaN to SQL NULL
and back, and SQLite orders NULL below every real value.
-/

namespace AliRural

/-- Surrogate for a Python/pandas float value (IEEE double idealised with
exact rational finite values). -/
inductive PValue where
  | nan
  | inf
  | ninf
  | fin (q : ℚ)
deriving DecidableEq

/-- Model of `pd.isna` on a scalar float: true exactly on NaN. -/
def PValue.isna : PValue → Bool
  | .nan => true
  | _ => false

/-- IEEE float division on `PValue` (signed zeros are not modelled; the
quotient of finite by zero takes the sign of the dividend, `0/0` is NaN). -/
def PValue.div : PValue → PValue → PValue
  | .nan, _ => .nan
  | .inf, .nan => .nan
  | .ninf, .nan => .nan
  | .fin _, .nan => .nan
  | .inf, .inf => .nan
  | .inf, .ninf => .nan
  | .ninf, .inf => .nan
  | .ninf, .ninf => .nan
  | .inf, .fin b => if b < 0 then .ninf else .inf
  | .ninf, .fin b => if b < 0 then .inf else .ninf
  | .fin _, .inf => .fin 0
  | .fin _, .ninf => .fin 0
  | .fin a, .fin b =>
      if b = 0 then (if a = 0 then .nan else if a < 0 then .ninf else .inf)
      else .fin (a / b)

/-- Python comparison `x <= q` between a float and a (finite) literal:
false on NaN, true on `-inf`, false on `+inf`. -/
def PValue.leQ : PValue → ℚ → Bool
  | .nan, _ => false
  | .inf, _ => false
  | .ninf, _ => true
  | .fin a, q => a ≤ q

/-- Function `classificar_por_mf` from `src/src/etl/enrich_modulo_fiscal.py`:
`None`/NaN → "Sem MF", `<= 4` → small, `<= 15` → medium, else large. -/
def classificar_por_mf (area_em_mf : Option PValue) : String :=
  match area_em_mf with
  | none => "Sem MF"
  | some v =>
      if v.isna then "Sem MF"
      else if v.leQ 4 then "Pequena (<=4 MF)"
      else if v.leQ 15 then "Média (4–15 MF)"
      else "Grande (>15 MF)"

/-- A raw cell of the `mf_ha` column of the reference CSV before
`pd.to_numeric(..., errors="coerce")`: a numeric value, a malformed
(non-numeric) entry, or a missing entry. -/
inductive Cell where
  | num (v : PValue)
  | malformed
  | missing
deriving DecidableEq

/-- Model of `pd.to_numeric(..., errors="coerce")` on a cell: numeric values pass
through, malformed and missing entries become NaN. -/
def to_numeric_coerce : Cell → PValue
  | .num v => v
  | .malformed => .nan
  | .missing => .nan

/-- A SQLite-resident numeric value: NULL or a real (infinities are
storable reals in SQLite; NaN is stored as NULL). -/
inductive SQLNum where
  | null
  | ninf
  | fin (q : ℚ)
  | pinf
deriving DecidableEq

/-- Writing a pandas float to SQLite (`to_sql`): NaN becomes NULL. -/
def pv2sql : PValue → SQLNum
  | .nan => .null
  | .inf => .pinf
  | .ninf => .ninf
  | .fin q => .fin q

/-- Reading a SQLite numeric into pandas (`read_sql_query`): NULL becomes NaN. -/
def sql2pv : SQLNum → PValue
  | .null => .nan
  | .pinf => .inf
  | .ninf => .ninf
  | .fin q => .fin q

/-- SQLite's total order on numeric storage values, as used by
`ORDER BY ... ASC`: NULL sorts below every value, then `-inf`, the
finite reals, `+inf` (so `DESC` puts NULL last). -/
def SQLNum.le : SQLNum → SQLNum → Bool
  | .null, _ => true
  | _, .null => false
  | .ninf, _ => true
  | _, .ninf => false
  | .fin a, .fin b => a ≤ b
  | .fin _, .pinf => true
  | .pinf, .fin _ => false
  | .pinf, .pinf => true

/-- One row of the base table `imoveis` (columns used by the app). -/
structure Imovel where
  codigo_imovel : String
  denominacao : String
  denominacao_norm : String
  ibge_municipio : String
  municipio : String
  municipio_norm : String
  uf : String
  area_total_ha : SQLNum
  percentual_detencao : SQLNum
  condicao_pessoa : String
  natureza_juridica : String
  titular : String
  titular_norm : String
  pais : String
deriving DecidableEq

/-- One row of the reference CSV `modulo_fiscal_er_jundiai.csv`. -/
structure RefRow where
  municipio_norm : String
  mf_ha : Cell
deriving DecidableEq

/-- One row of the enriched table `imoveis_enriquecido`: all base columns
plus the three derived columns, as stored in SQLite. -/
structure Enriched where
  base : Imovel
  mf_ha : SQLNum
  area_em_mf : SQLNum
  classe_tamanho : String
deriving DecidableEq

/-- The per-row computation of `main` in `enrich_modulo_fiscal.py`:
left-join on `municipio_norm` (first matching reference row; an
unmatched row gets NaN from the merge), coerce `mf_ha` to numeric,
compute `area_em_mf = area_total_ha / mf_ha`, classify, and store
(NaN becoming NULL on `to_sql`). -/
def enrichRow (ref : List RefRow) (im : Imovel) : Enriched :=
  let cell : Cell :=
    match ref.find? (fun r => r.municipio_norm == im.municipio_norm) with
    | some r => r.mf_ha
    | none => Cell.missing
  let mf : PValue := to_numeric_coerce cell
  let amf : PValue := PValue.div (sql2pv im.area_total_ha) mf
  { base := im
    mf_ha := pv2sql mf
    area_em_mf := pv2sql amf
    classe_tamanho := classificar_por_mf (some amf) }

/-- The whole enrichment computation of `main`: one enriched row per base
row, in order. -/
def enrich (ref : List RefRow) (ims : List Imovel) : List Enriched :=
  ims.map (enrichRow ref)

/-- The SQLite database file: the base table and, optionally, the
enriched table (`none` = table absent). -/
structure Database where
  imoveis : Option (List Imovel)
  imoveis_enriquecido : Option (List Enriched)
deriving DecidableEq

/-- The file-system state `main` touches: the database file and the
reference CSV (`none` = file absent). -/
structure World where
  db : Option Database
  refFile : Option (List RefRow)
deriving DecidableEq

/-- Function `main` of `enrich_modulo_fiscal.py` as a state transformer: check the
database file, check the reference file, read `imoveis` (a missing table
raises inside `read_sql_query`), compute the enrichment and replace
`imoveis_enriquecido` (`if_exists="replace"`).  The returned world is
the state after the run; every failing branch raises before any write,
so it returns the input world unchanged together with the error. -/
def etlMain (w : World) : World × Except String Unit :=
  match w.db with
  | none => (w, .error "FileNotFoundError: SQLite não encontrado")
  | some db =>
    match w.refFile with
    | none => (w, .error "FileNotFoundError: Referência MF não encontrada")
    | some ref =>
      match db.imoveis with
      | none => (w, .error "DatabaseError: no such table: imoveis")
      | some ims =>
          ({ db := some { db with imoveis_enriquecido := some (enrich ref ims) }
             refFile := w.refFile },
           .ok ())

/-- SQL `v >= p` in a WHERE clause (`p` a finite parameter): a NULL
comparison is not TRUE, so the row is filtered out. -/
def sqlGe (v : SQLNum) (p : ℚ) : Bool :=
  match v with
  | .null => false
  | _ => SQLNum.le (.fin p) v

/-- SQL `v BETWEEN lo AND hi` in a WHERE clause (finite parameters):
NULL operand → not TRUE → row filtered out. -/
def sqlBetween (v : SQLNum) (lo hi : ℚ) : Bool :=
  match v with
  | .null => false
  | _ => SQLNum.le (.fin lo) v && SQLNum.le v (.fin hi)

/-- SQLite `col LIKE '%pat%'` (ASCII-case-insensitive substring match;
the app always wraps the user text in the two outer wildcards and the
claims treat the inner text literally). -/
def sqlLike (pat s : String) : Bool :=
  decide (List.IsInfix pat.toUpper.data s.toUpper.data)

/-- The filter criteria of the Prospecção tab (enriched mode), as read
from the widgets: `"Todos"`/`"Todas"`/`""` encode the inactive state
exactly as in `app.py`. -/
structure Filtros where
  municipio : String
  condicao : String
  area_min : ℚ
  area_max : ℚ
  pct_min : ℚ
  busca : String
  natureza : String
  classe : String
  area_mf_min : ℚ
  area_mf_max : ℚ
deriving DecidableEq

/-- One conjunct of the WHERE clause built by the Prospecção tab
(each constructor is one of the `where.append(...)` templates). -/
inductive Cond where
  | ufEq (s : String)
  | areaBetween (lo hi : ℚ)
  | pctGe (p : ℚ)
  | munEq (m : String)
  | condEq (c : String)
  | natLike (s : String)
  | buscaLike (b : String)
  | classeEq (c : String)
  | amfBetween (lo hi : ℚ)
deriving DecidableEq

/-- The WHERE-clause list built in `app.py` (enriched mode,
`HAS_ENRICH = True`): the fixed conjuncts, the optional ones in source
order, and unconditionally the `area_em_mf BETWEEN ? AND ?` conjunct. -/
def buildWhere (f : Filtros) : List Cond :=
  [Cond.ufEq "SP", Cond.areaBetween f.area_min f.area_max, Cond.pctGe f.pct_min]
    ++ (if f.municipio = "Todos" then [] else [Cond.munEq f.municipio])
    ++ (if f.condicao = "Todas" then [] else [Cond.condEq f.condicao])
    ++ (if f.natureza = "" then [] else [Cond.natLike f.natureza])
    ++ (if f.busca = "" then [] else [Cond.buscaLike f.busca])
    ++ (if f.classe = "Todas" then [] else [Cond.classeEq f.classe])
    ++ [Cond.amfBetween f.area_mf_min f.area_mf_max]

/-- Evaluation of one conjunct on an enriched row (SQL semantics: the
row is kept when the conjunct is TRUE). -/
def evalCondE (r : Enriched) : Cond → Bool
  | .ufEq s => r.base.uf == s
  | .areaBetween lo hi => sqlBetween r.base.area_total_ha lo hi
  | .pctGe p => sqlGe r.base.percentual_detencao p
  | .munEq m => r.base.municipio == m
  | .condEq c => r.base.condicao_pessoa == c
  | .natLike s => sqlLike s r.base.natureza_juridica
  | .buscaLike b =>
      sqlLike b r.base.codigo_imovel
        || sqlLike b.toUpper r.base.denominacao_norm
        || sqlLike b.toUpper r.base.titular_norm
  | .classeEq c => r.classe_tamanho == c
  | .amfBetween lo hi => sqlBetween r.area_em_mf lo hi

/-- A row passes the WHERE clause when every conjunct is TRUE. -/
def rowSelectedE (f : Filtros) (r : Enriched) : Bool :=
  (buildWhere f).all (evalCondE r)

/-- Clause `ORDER BY area_em_mf DESC, area_total_ha DESC` (enriched mode) as a
before-or-equal relation on rows. -/
def ordEb (a b : Enriched) : Bool :=
  if a.area_em_mf = b.area_em_mf
  then SQLNum.le b.base.area_total_ha a.base.area_total_ha
  else SQLNum.le b.area_em_mf a.area_em_mf

def ordE (a b : Enriched) : Prop :=
  ordEb a b = true

instance : DecidableRel ordE :=
  fun a b => instDecidableEqBool (ordEb a b) true

/-- The paginated Prospecção query of `app.py` in enriched mode: WHERE,
ORDER BY, `LIMIT page_size OFFSET (page - 1) * page_size`. -/
def prospQueryE (f : Filtros) (page pageSize : ℕ) (tbl : List Enriched) : List Enriched :=
  let offset := (page - 1) * pageSize
  (((tbl.filter (rowSelectedE f)).insertionSort ordE).drop offset).take pageSize

/-- The filter criteria available in base-table mode (no MF widgets). -/
structure FiltrosBase where
  municipio : String
  condicao : String
  area_min : ℚ
  area_max : ℚ
  pct_min : ℚ
  busca : String
  natureza : String
deriving DecidableEq

/-- The WHERE-clause list in base-table mode (`HAS_ENRICH = False`):
same conjuncts without the two MF ones. -/
def buildWhereBase (f : FiltrosBase) : List Cond :=
  [Cond.ufEq "SP", Cond.areaBetween f.area_min f.area_max, Cond.pctGe f.pct_min]
    ++ (if f.municipio = "Todos" then [] else [Cond.munEq f.municipio])
    ++ (if f.condicao = "Todas" then [] else [Cond.condEq f.condicao])
    ++ (if f.natureza = "" then [] else [Cond.natLike f.natureza])
    ++ (if f.busca = "" then [] else [Cond.buscaLike f.busca])

/-- Evaluation of one conjunct on a base row; the two MF conjuncts are
never produced by `buildWhereBase`. -/
def evalCondB (r : Imovel) : Cond → Bool
  | .ufEq s => r.uf == s
  | .areaBetween lo hi => sqlBetween r.area_total_ha lo hi
  | .pctGe p => sqlGe r.percentual_detencao p
  | .munEq m => r.municipio == m
  | .condEq c => r.condicao_pessoa == c
  | .natLike s => sqlLike s r.natureza_juridica
  | .buscaLike b =>
      sqlLike b r.codigo_imovel
        || sqlLike b.toUpper r.denominacao_norm
        || sqlLike b.toUpper r.titular_norm
  | .classeEq _ => false
  | .amfBetween _ _ => false

def rowSelectedB (f : FiltrosBase) (r : Imovel) : Bool :=
  (buildWhereBase f).all (evalCondB r)

/-- Clause `ORDER BY area_total_ha DESC` (base mode). -/
def ordBb (a b : Imovel) : Bool :=
  SQLNum.le b.area_total_ha a.area_total_ha

def ordB (a b : Imovel) : Prop :=
  ordBb a b = true

instance : DecidableRel ordB :=
  fun a b => instDecidableEqBool (ordBb a b) true

/-- The paginated Prospecção query of `app.py` in base-table mode. -/
def prospQueryB (f : FiltrosBase) (page pageSize : ℕ) (tbl : List Imovel) : List Imovel :=
  let offset := (page - 1) * pageSize
  (((tbl.filter (rowSelectedB f)).insertionSort ordB).drop offset).take pageSize

/-- Constant `export_limit = 200_000` in `app.py`. -/
def export_limit : ℕ := 200000

/-- Gate `can_export_all = total <= export_limit` in `app.py`. -/
def can_export_all (total : ℕ) : Bool :=
  total ≤ export_limit

/-- Outcome of the "Gerar Excel (todos filtrados)" control: whether the
limit warning is shown, and the produced rows (none when the button is
disabled). -/
structure ExportOutcome where
  warned : Bool
  file : Option (List Enriched)
deriving DecidableEq

/-- The export-all control of `app.py`: `total` is the COUNT(*) of the
WHERE clause; above the limit a warning is shown and the (disabled)
button can produce no file, otherwise the full filtered ordered result
is produced. -/
def exportAll (f : Filtros) (tbl : List Enriched) : ExportOutcome :=
  let total := (tbl.filter (rowSelectedE f)).length
  if can_export_all total then
    { warned := false
      file := some ((tbl.filter (rowSelectedE f)).insertionSort ordE) }
  else
    { warned := true, file := none }

/-- The rows returned by the detail query
`SELECT ... WHERE codigo_imovel = ?`. -/
def detLookup (tbl : List Enriched) (codigo : String) : List Enriched :=
  tbl.filter (fun r => r.base.codigo_imovel == codigo)

/-- Outcome of the detail section: the "Código não encontrado." notice,
or the rows displayed. -/
inductive DetResult where
  | notFound
  | found (rows : List Enriched)
deriving DecidableEq

/-- The detail lookup of `app.py`: run the query, show the notice when
the result is empty, the rows otherwise. -/
def det (tbl : List Enriched) (codigo : String) : DetResult :=
  let rows := detLookup tbl codigo
  if rows.isEmpty then .notFound else .found rows

/-- Single-character replacement; every `.replace` in the formatting
helpers of `app.py` replaces one character by one character. -/
def replaceChar (s : String) (a b : Char) : String :=
  String.mk (s.data.map (fun c => if c = a then b else c))

def chunk3 : List Char → List (List Char)
  | [] => []
  | [a] => [[a]]
  | [a, b] => [[a, b]]
  | a :: b :: c :: rest => [a, b, c] :: chunk3 rest

/-- The digits of `n` grouped in threes from the right and joined with
`","`, as the Python `,` format specifier renders a non-negative
integer. -/
def groupThousandsNat (n : ℕ) : String :=
  String.intercalate ","
    (((chunk3 (Nat.toDigits 10 n).reverse).map (fun c => String.mk c.reverse)).reverse)

/-- Python `f"{n:,}"` for an `int`. -/
def pyThousandsInt (n : ℤ) : String :=
  (if n < 0 then "-" else "") ++ groupThousandsNat n.natAbs

/-- Possible arguments of `fmt_int` once null/NaN inputs are in scope
(the claim quantifies over exactly these). -/
inductive NumIn where
  | null
  | nanv
  | int (n : ℤ)
deriving DecidableEq

/-- Helper `fmt_int` from `app.py`: `f"{n:,}".replace(",", ".")`.  There is no
null/NaN guard: formatting `None` with `,` raises `TypeError`;
formatting a float NaN renders `"nan"`. -/
def fmt_int : NumIn → Except String String
  | .null => .error "TypeError: unsupported format string passed to NoneType.__format__"
  | .nanv => .ok "nan"
  | .int n => .ok (replaceChar (pyThousandsInt n) ',' '.')

/-- Round half to even, as Python's float formatting rounds an exact
value lying halfway. -/
def rhe (q : ℚ) : ℤ :=
  if q - ⌊q⌋ < 1 / 2 then ⌊q⌋
  else if 1 / 2 < q - ⌊q⌋ then ⌊q⌋ + 1
  else if ⌊q⌋ % 2 = 0 then ⌊q⌋ else ⌊q⌋ + 1

def padZeros (len : ℕ) (n : ℕ) : String :=
  String.mk (List.replicate (len - (Nat.toDigits 10 n).length) '0')
    ++ String.mk (Nat.toDigits 10 n)

/-- Python `f"{x:,.{dec}f}"` for a finite float (idealised to exact rational
rounding). -/
def pyFixed (q : ℚ) (dec : ℕ) : String :=
  let n := rhe (q * (10 : ℚ) ^ dec)
  let sign := if q < 0 then "-" else ""
  if dec = 0 then sign ++ groupThousandsNat n.natAbs
  else
    sign ++ groupThousandsNat (n.natAbs / 10 ^ dec)
      ++ "." ++ padZeros dec (n.natAbs % 10 ^ dec)

/-- Helper `fmt_float` from `app.py`: `None`/NaN yield `"-"`; otherwise format
with thousands separator and `dec` decimals and swap `","`/`"."` into
Brazilian convention via the three `.replace` calls. -/
def fmt_float (x : Option PValue) (dec : ℕ) : String :=
  match x with
  | none => "-"
  | some v =>
      if v.isna then "-"
      else
        let s : String :=
          match v with
          | .inf => "inf"
          | .ninf => "-inf"
          | .nan => "nan"
          | .fin q => pyFixed q dec
        replaceChar (replaceChar (replaceChar s ',' 'X') '.' ',') 'X' '.'

/-- A concrete base row (the §8 example: CAMPINAS, 50 ha). -/
def imCampinas : Imovel :=
  { codigo_imovel := "0010001"
    denominacao := "Fazenda Boa Vista"
    denominacao_norm := "FAZENDA BOA VISTA"
    ibge_municipio := "3509502"
    municipio := "Campinas"
    municipio_norm := "CAMPINAS"
    uf := "SP"
    area_total_ha := .fin 50
    percentual_detencao := .fin 100
    condicao_pessoa := "Física"
    natureza_juridica := "Pessoa Física"
    titular := "Titular Um"
    titular_norm := "TITULAR UM"
    pais := "Brasil" }

/-- A concrete base row with zero total area. -/
def imZero : Imovel :=
  { imCampinas with codigo_imovel := "0010002", area_total_ha := .fin 0 }

/-- Reference table containing CAMPINAS with `mf_ha = 20` (the §8 example). -/
def refCampinas20 : List RefRow :=
  [{ municipio_norm := "CAMPINAS", mf_ha := Cell.num (.fin 20) }]

/-- Reference table containing CAMPINAS with `mf_ha = 0`. -/
def refCampinas0 : List RefRow :=
  [{ municipio_norm := "CAMPINAS", mf_ha := Cell.num (.fin 0) }]

/-- Reference table not containing CAMPINAS. -/
def refOutra : List RefRow :=
  [{ municipio_norm := "OUTRA", mf_ha := Cell.num (.fin 20) }]

/-- A filter selection with every optional criterion inactive (the
widgets' default values). -/
def filtrosPadrao : Filtros :=
  { municipio := "Todos"
    condicao := "Todas"
    area_min := 0
    area_max := 200
    pct_min := 0
    busca := ""
    natureza := ""
    classe := "Todas"
    area_mf_min := 0
    area_mf_max := 10 }

/-- The default filter selection with size class "Sem MF" selected. -/
def filtrosSemMF : Filtros :=
  { filtrosPadrao with classe := "Sem MF" }

/-- The enriched row of the §8 example. -/
def rowCampinas : Enriched :=
  enrichRow refCampinas20 imCampinas

/-- A second enriched row with a different property code. -/
def rowSegundo : Enriched :=
  enrichRow refCampinas20 { imCampinas with codigo_imovel := "0010003" }

/-- A filtered table one row above the export ceiling. -/
def bigTbl : List Enriched :=
  List.replicate 200001 rowCampinas

/-- A world where both input files and the base table exist. -/
def worldOk : World :=
  { db := some { imoveis := some [imCampinas], imoveis_enriquecido := none }
    refFile := some refCampinas20 }

/-- A world without the SQLite file. -/
def worldSemDB : World :=
  { db := none, refFile := some refCampinas20 }

theorem sql2pv_pv2sql (v : PValue) : sql2pv (pv2sql v) = v := by
  cases v <;> rfl

theorem pv2sql_eq_null_iff (v : PValue) : pv2sql v = SQLNum.null ↔ v = PValue.nan := by
  cases v <;> simp [pv2sql]

theorem PValue.div_nan (x : PValue) : PValue.div x PValue.nan = PValue.nan := by
  cases x <;> rfl

theorem pv2sql_eq_fin_iff (v : PValue) (q : ℚ) :
    pv2sql v = SQLNum.fin q ↔ v = PValue.fin q := by
  cases v <;> simp [pv2sql]

theorem enrichRow_def (ref : List RefRow) (im : Imovel) :
    ∃ m : PValue,
      (enrichRow ref im).base = im ∧
      (enrichRow ref im).mf_ha = pv2sql m ∧
      (enrichRow ref im).area_em_mf = pv2sql (PValue.div (sql2pv im.area_total_ha) m) ∧
      (enrichRow ref im).classe_tamanho
        = classificar_por_mf (some (PValue.div (sql2pv im.area_total_ha) m)) :=
  ⟨_, rfl, rfl, rfl, rfl⟩

theorem classificar_eq_semMF_iff (v : PValue) :
    classificar_por_mf (some v) = "Sem MF" ↔ v = PValue.nan := by
  cases v
  case nan => simp [classificar_por_mf, PValue.isna]
  case inf =>
    simp only [classificar_por_mf, PValue.isna, PValue.leQ, if_false, Bool.false_eq_true]
    constructor
    · intro h; exact absurd h (by decide)
    · intro h; exact absurd h (by decide)
  case ninf =>
    simp only [classificar_por_mf, PValue.isna, PValue.leQ, if_true, Bool.false_eq_true,
      if_false]
    constructor
    · intro h; exact absurd h (by decide)
    · intro h; exact absurd h (by decide)
  case fin q =>
    simp only [classificar_por_mf, PValue.isna, PValue.leQ, Bool.false_eq_true, if_false]
    constructor
    · intro h
      rcases le_or_lt q 4 with h4 | h4
      · rw [if_pos (by simpa using h4)] at h; exact absurd h (by decide)
      · rw [if_neg (by simpa using not_le.mpr h4)] at h
        rcases le_or_lt q 15 with h15 | h15
        · rw [if_pos (by simpa using h15)] at h; exact absurd h (by decide)
        · rw [if_neg (by simpa using not_le.mpr h15)] at h; exact absurd h (by decide)
    · intro h; exact PValue.noConfusion h

theorem SQLNum.le_rfl (a : SQLNum) : SQLNum.le a a = true := by
  cases a <;> simp [SQLNum.le]

theorem SQLNum.le_tot (a b : SQLNum) : SQLNum.le a b = true ∨ SQLNum.le b a = true := by
  cases a <;> cases b <;> simp [SQLNum.le, decide_eq_true_iff]
  exact le_total _ _

theorem SQLNum.le_trans {a b c : SQLNum} (h1 : SQLNum.le a b = true)
    (h2 : SQLNum.le b c = true) : SQLNum.le a c = true := by
  cases a <;> cases b <;> cases c <;>
    simp_all [SQLNum.le, decide_eq_true_iff]
  exact h1.trans h2

theorem SQLNum.le_antisymm {a b : SQLNum} (h1 : SQLNum.le a b = true)
    (h2 : SQLNum.le b a = true) : a = b := by
  cases a <;> cases b <;> simp_all [SQLNum.le, decide_eq_true_iff]
  exact h1.antisymm h2

theorem ordE_total (a b : Enriched) : ordE a b ∨ ordE b a := by
  unfold ordE ordEb
  by_cases h : a.area_em_mf = b.area_em_mf
  · rw [if_pos h, if_pos h.symm]
    exact SQLNum.le_tot _ _
  · rw [if_neg h, if_neg (fun hh => h hh.symm)]
    exact SQLNum.le_tot _ _

theorem ordE_trans {a b c : Enriched} (h1 : ordE a b) (h2 : ordE b c) : ordE a c := by
  unfold ordE ordEb at h1 h2 ⊢
  by_cases hab : a.area_em_mf = b.area_em_mf <;>
    by_cases hbc : b.area_em_mf = c.area_em_mf
  · rw [if_pos hab] at h1
    rw [if_pos hbc] at h2
    rw [if_pos (hab.trans hbc)]
    exact SQLNum.le_trans h2 h1
  · rw [if_neg hbc] at h2
    rw [← hab] at h2
    rw [if_neg (fun h => hbc (hab.symm.trans h))]
    exact h2
  · rw [if_neg hab] at h1
    rw [hbc] at hab
    rw [hbc] at h1
    rw [if_neg hab]
    exact h1
  · rw [if_neg hab] at h1
    rw [if_neg hbc] at h2
    have hac : a.area_em_mf ≠ c.area_em_mf := by
      intro h
      have h2a : SQLNum.le a.area_em_mf b.area_em_mf = true := by
        rw [h]; exact h2
      exact hab (SQLNum.le_antisymm h2a h1)
    rw [if_neg hac]
    exact SQLNum.le_trans h2 h1

theorem ordB_total (a b : Imovel) : ordB a b ∨ ordB b a := by
  unfold ordB ordBb
  exact SQLNum.le_tot _ _

theorem ordB_trans {a b c : Imovel} (h1 : ordB a b) (h2 : ordB b c) : ordB a c := by
  unfold ordB ordBb at h1 h2 ⊢
  exact SQLNum.le_trans h2 h1

/-- Claim C7: if the SQLite file, the reference file or the base table
`imoveis` is absent, the enrichment job aborts with an error and leaves
the stored state (in particular any prior enriched table) untouched. -/
theorem C7_fatal_on_missing_inputs (w : World)
    (h : w.db = none ∨ w.refFile = none ∨ ∃ db, w.db = some db ∧ db.imoveis = none) :
    (etlMain w).1 = w ∧ ∃ msg, (etlMain w).2 = Except.error msg := by
  obtain ⟨dbo, refo⟩ := w
  rcases h with h | h | ⟨db, hdb, him⟩
  · cases h
    exact ⟨rfl, _, rfl⟩
  · cases h
    cases dbo with
    | none => exact ⟨rfl, _, rfl⟩
    | some db => exact ⟨rfl, _, rfl⟩
  · cases hdb
    obtain ⟨imso, enro⟩ := db
    have him2 : imso = none := him
    cases him2
    cases refo with
    | none => exact ⟨rfl, _, rfl⟩
    | some ref => exact ⟨rfl, _, rfl⟩

/-- Witness for C7 at a concrete world with no SQLite file. -/
theorem C7_fatal_on_missing_inputs_witness :
    (etlMain worldSemDB).1 = worldSemDB ∧
      ∃ msg, (etlMain worldSemDB).2 = Except.error msg :=
  C7_fatal_on_missing_inputs worldSemDB (Or.inl rfl)

/-- Claim C8: when the enrichment job succeeds, running it again on the
resulting (unchanged) inputs succeeds and produces exactly the same
state — in particular the same enriched table. -/
theorem C8_idempotent (w : World) (h : (etlMain w).2 = Except.ok ()) :
    etlMain ((etlMain w).1) = ((etlMain w).1, Except.ok ()) := by
  obtain ⟨dbo, refo⟩ := w
  cases dbo with
  | none => exact absurd h (by simp [etlMain])
  | some db =>
    cases refo with
    | none => exact absurd h (by simp [etlMain])
    | some ref =>
      obtain ⟨imso, enro⟩ := db
      cases imso with
      | none => exact absurd h (by simp [etlMain])
      | some ims => rfl

/-- Witness for C8 at a concrete world holding the base table and the
reference file. -/
theorem C8_idempotent_witness :
    etlMain ((etlMain worldOk).1) = ((etlMain worldOk).1, Except.ok ()) :=
  C8_idempotent worldOk rfl

/-- Counterexample to claim C1 as stated: with fiscal-module size 0 and
total area 50 the pandas division yields +infinity, not null, and the
record is classified "Grande (>15 MF)", not "Sem MF". -/
theorem C1_zero_mf_counterexample :
    (enrichRow refCampinas0 imCampinas).mf_ha = SQLNum.fin 0 ∧
    (enrichRow refCampinas0 imCampinas).area_em_mf = SQLNum.pinf ∧
    (enrichRow refCampinas0 imCampinas).area_em_mf ≠ SQLNum.null ∧
    (enrichRow refCampinas0 imCampinas).classe_tamanho = "Grande (>15 MF)" ∧
    (enrichRow refCampinas0 imCampinas).classe_tamanho ≠ "Sem MF" := by
  refine ⟨?_, ?_, ?_, ?_, ?_⟩ <;>
    norm_num [enrichRow, refCampinas0, imCampinas, to_numeric_coerce, sql2pv, pv2sql,
      PValue.div, classificar_por_mf, PValue.isna, PValue.leQ, List.find?] <;>
    decide

/-- Claim C1 (amended): for every record the stored area-in-modules is
the IEEE quotient of the stored total area by the stored fiscal-module
size (the computation is total, hence never raises); a null
fiscal-module size yields a null area-in-modules classified "Sem MF"; a
zero fiscal-module size yields null and "Sem MF" only when the total
area is also zero, while a positive total area then yields +infinity
classified "Grande (>15 MF)". -/
theorem C1_division_semantics (ref : List RefRow) (im : Imovel) :
    (enrichRow ref im).area_em_mf
      = pv2sql (PValue.div (sql2pv im.area_total_ha) (sql2pv (enrichRow ref im).mf_ha)) ∧
    ((enrichRow ref im).mf_ha = SQLNum.null →
      (enrichRow ref im).area_em_mf = SQLNum.null ∧
      (enrichRow ref im).classe_tamanho = "Sem MF") ∧
    ((enrichRow ref im).mf_ha = SQLNum.fin 0 → im.area_total_ha = SQLNum.fin 0 →
      (enrichRow ref im).area_em_mf = SQLNum.null ∧
      (enrichRow ref im).classe_tamanho = "Sem MF") ∧
    (∀ q : ℚ, (enrichRow ref im).mf_ha = SQLNum.fin 0 → im.area_total_ha = SQLNum.fin q →
      0 < q →
      (enrichRow ref im).area_em_mf = SQLNum.pinf ∧
      (enrichRow ref im).classe_tamanho = "Grande (>15 MF)") := by
  obtain ⟨m, hb, hmf, hamf, hcls⟩ := enrichRow_def ref im
  refine ⟨?_, ?_, ?_, ?_⟩
  · rw [hamf, hmf, sql2pv_pv2sql]
  · intro h
    rw [hmf, pv2sql_eq_null_iff] at h
    subst h
    rw [hamf, hcls, PValue.div_nan]
    exact ⟨rfl, rfl⟩
  · intro hm ha
    rw [hmf, pv2sql_eq_fin_iff] at hm
    subst hm
    rw [hamf, hcls, ha]
    norm_num [sql2pv, PValue.div, pv2sql, classificar_por_mf, PValue.isna]
  · intro q hm ha hq
    rw [hmf, pv2sql_eq_fin_iff] at hm
    subst hm
    rw [hamf, hcls, ha]
    have hq0 : ¬ q = 0 := ne_of_gt hq
    have hqn : ¬ q < 0 := not_lt.mpr hq.le
    simp [sql2pv, PValue.div, pv2sql, classificar_por_mf, PValue.isna, PValue.leQ,
      hq0, hqn]

/-- Witness for C1 (amended) at concrete inputs: a missing reference
entry (null fiscal module), a zero fiscal module with zero area, and a
zero fiscal module with positive area. -/
theorem C1_division_semantics_witness :
    (enrichRow refOutra imCampinas).area_em_mf = SQLNum.null ∧
    (enrichRow refOutra imCampinas).classe_tamanho = "Sem MF" ∧
    (enrichRow refCampinas0 imZero).classe_tamanho = "Sem MF" ∧
    (enrichRow refCampinas0 imCampinas).classe_tamanho = "Grande (>15 MF)" := by
  have hnull : (enrichRow refOutra imCampinas).mf_ha = SQLNum.null := by
    norm_num [enrichRow, refOutra, imCampinas, to_numeric_coerce, pv2sql, List.find?,
      (by decide : ("OUTRA" == "CAMPINAS") = false)]
  have hzero : (enrichRow refCampinas0 imZero).mf_ha = SQLNum.fin 0 := by
    norm_num [enrichRow, refCampinas0, imZero, imCampinas, to_numeric_coerce, pv2sql,
      List.find?]
  have hzero2 : (enrichRow refCampinas0 imCampinas).mf_ha = SQLNum.fin 0 := by
    norm_num [enrichRow, refCampinas0, imCampinas, to_numeric_coerce, pv2sql, List.find?]
  refine ⟨((C1_division_semantics refOutra imCampinas).2.1 hnull).1,
    ((C1_division_semantics refOutra imCampinas).2.1 hnull).2,
    ((C1_division_semantics refCampinas0 imZero).2.2.1 hzero rfl).2,
    ((C1_division_semantics refCampinas0 imCampinas).2.2.2 50 hzero2 rfl (by norm_num)).2⟩

/-- Claim C2: the classifier is a pure total function returning one of
exactly four classes, with null/NaN mapped to "Sem MF" and the fixed
thresholds 4 and 15 evaluated in order; in particular total area 50 with
fiscal-module size 20 gives area-in-modules 5/2 classified
"Pequena (<=4 MF)". -/
theorem C2_classifier (x : Option PValue) (q : ℚ) :
    (classificar_por_mf x = "Sem MF" ∨ classificar_por_mf x = "Pequena (<=4 MF)" ∨
      classificar_por_mf x = "Média (4–15 MF)" ∨
      classificar_por_mf x = "Grande (>15 MF)") ∧
    classificar_por_mf none = "Sem MF" ∧
    classificar_por_mf (some PValue.nan) = "Sem MF" ∧
    (q ≤ 4 → classificar_por_mf (some (PValue.fin q)) = "Pequena (<=4 MF)") ∧
    (4 < q → q ≤ 15 → classificar_por_mf (some (PValue.fin q)) = "Média (4–15 MF)") ∧
    (15 < q → classificar_por_mf (some (PValue.fin q)) = "Grande (>15 MF)") ∧
    rowCampinas.mf_ha = SQLNum.fin 20 ∧
    rowCampinas.area_em_mf = SQLNum.fin (5 / 2) ∧
    rowCampinas.classe_tamanho = "Pequena (<=4 MF)" := by
  refine ⟨?_, rfl, rfl, ?_, ?_, ?_, ?_, ?_, ?_⟩
  · match x with
    | none => exact Or.inl rfl
    | some PValue.nan => exact Or.inl rfl
    | some PValue.inf =>
        exact Or.inr (Or.inr (Or.inr (by
          simp [classificar_por_mf, PValue.isna, PValue.leQ])))
    | some PValue.ninf =>
        exact Or.inr (Or.inl (by simp [classificar_por_mf, PValue.isna, PValue.leQ]))
    | some (PValue.fin p) =>
        rcases le_or_lt p 4 with h4 | h4
        · exact Or.inr (Or.inl (by
            simp [classificar_por_mf, PValue.isna, PValue.leQ, h4]))
        · rcases le_or_lt p 15 with h15 | h15
          · exact Or.inr (Or.inr (Or.inl (by
              simp [classificar_por_mf, PValue.isna, PValue.leQ, not_le.mpr h4, h15])))
          · exact Or.inr (Or.inr (Or.inr (by
              simp [classificar_por_mf, PValue.isna, PValue.leQ, not_le.mpr h4,
                not_le.mpr h15])))
  · intro h
    simp [classificar_por_mf, PValue.isna, PValue.leQ, h]
  · intro h4 h15
    simp [classificar_por_mf, PValue.isna, PValue.leQ, not_le.mpr h4, h15]
  · intro h15
    have h4 : ¬ q ≤ 4 := not_le.mpr (lt_trans (by norm_num) h15)
    simp [classificar_por_mf, PValue.isna, PValue.leQ, h4, not_le.mpr h15]
  · norm_num [rowCampinas, enrichRow, refCampinas20, imCampinas, to_numeric_coerce,
      sql2pv, pv2sql, PValue.div, List.find?]
  · norm_num [rowCampinas, enrichRow, refCampinas20, imCampinas, to_numeric_coerce,
      sql2pv, pv2sql, PValue.div, List.find?]
  · norm_num [rowCampinas, enrichRow, refCampinas20, imCampinas, to_numeric_coerce,
      sql2pv, pv2sql, PValue.div, classificar_por_mf, PValue.isna, PValue.leQ,
      List.find?]

/-- Witness for C2 at concrete inputs in each threshold band. -/
theorem C2_classifier_witness :
    classificar_por_mf (some (PValue.fin (5 / 2))) = "Pequena (<=4 MF)" ∧
    classificar_por_mf (some (PValue.fin 10)) = "Média (4–15 MF)" ∧
    classificar_por_mf (some (PValue.fin 20)) = "Grande (>15 MF)" ∧
    rowCampinas.classe_tamanho = "Pequena (<=4 MF)" :=
  ⟨(C2_classifier (some (PValue.fin (5 / 2))) (5 / 2)).2.2.2.1 (by norm_num),
   (C2_classifier none 10).2.2.2.2.1 (by norm_num) (by norm_num),
   (C2_classifier none 20).2.2.2.2.2.1 (by norm_num),
   (C2_classifier none 0).2.2.2.2.2.2.2.2⟩

/-- Claim C3: a record whose normalized municipality is absent from the
reference table gets a null fiscal-module size, a null area-in-modules,
and size class "Sem MF". -/
theorem C3_absent_municipality (ref : List RefRow) (im : Imovel)
    (h : ∀ r ∈ ref, r.municipio_norm ≠ im.municipio_norm) :
    (enrichRow ref im).mf_ha = SQLNum.null ∧
    (enrichRow ref im).area_em_mf = SQLNum.null ∧
    (enrichRow ref im).classe_tamanho = "Sem MF" := by
  have hf : ref.find? (fun r => r.municipio_norm == im.municipio_norm) = none := by
    rw [List.find?_eq_none]
    intro r hr
    simpa using h r hr
  refine ⟨?_, ?_, ?_⟩ <;>
    simp [enrichRow, hf, to_numeric_coerce, PValue.div_nan, pv2sql,
      classificar_por_mf, PValue.isna]

/-- Witness for C3: the CAMPINAS record against a reference containing
only OUTRA. -/
theorem C3_absent_municipality_witness :
    (enrichRow refOutra imCampinas).mf_ha = SQLNum.null ∧
    (enrichRow refOutra imCampinas).area_em_mf = SQLNum.null ∧
    (enrichRow refOutra imCampinas).classe_tamanho = "Sem MF" :=
  C3_absent_municipality refOutra imCampinas (by
    intro r hr
    have hr2 : r = { municipio_norm := "OUTRA", mf_ha := Cell.num (.fin 20) } := by
      simpa [refOutra] using hr
    subst hr2
    show "OUTRA" ≠ imCampinas.municipio_norm
    exact (by decide : ("OUTRA" : String) ≠ "CAMPINAS"))

/-- Counterexample to claim C4 as stated: the integer formatter
`fmt_int` has no null/NaN guard — formatting null raises `TypeError`
instead of returning "-", and formatting NaN renders "nan", not "-". -/
theorem C4_fmt_int_counterexample :
    fmt_int NumIn.null
      = Except.error "TypeError: unsupported format string passed to NoneType.__format__" ∧
    fmt_int NumIn.nanv = Except.ok "nan" ∧
    fmt_int NumIn.nanv ≠ Except.ok "-" := by
  refine ⟨rfl, rfl, ?_⟩
  intro h
  exact absurd (Except.ok.inj h) (by decide)

/-- Claim C4 (amended): `fmt_float` — the only formatting helper whose
inputs can be null/NaN — returns the placeholder "-" on every null or
NaN input for every decimal count and never raises; `fmt_int` never
raises on the integers it is applied to, but it has no null/NaN guard:
null raises `TypeError` and NaN renders "nan". -/
theorem C4_null_formatting (dec : ℕ) (n : ℤ) :
    fmt_float none dec = "-" ∧
    fmt_float (some PValue.nan) dec = "-" ∧
    (∃ s, fmt_int (NumIn.int n) = Except.ok s) ∧
    fmt_int NumIn.null
      = Except.error "TypeError: unsupported format string passed to NoneType.__format__" ∧
    fmt_int NumIn.nanv = Except.ok "nan" :=
  ⟨rfl, rfl, ⟨_, rfl⟩, rfl, rfl⟩

/-- Claim C5: export-all is permitted exactly when the total filtered
row count is at most 200000: permitted at exactly 200000, refused with a
warning and no file above it. -/
theorem C5_export_gate (total : ℕ) (f : Filtros) (tbl : List Enriched) :
    (can_export_all total = true ↔ total ≤ 200000) ∧
    can_export_all 200000 = true ∧
    ((tbl.filter (rowSelectedE f)).length > 200000 →
      (exportAll f tbl).warned = true ∧ (exportAll f tbl).file = none) ∧
    ((tbl.filter (rowSelectedE f)).length ≤ 200000 →
      (exportAll f tbl).warned = false ∧
      (exportAll f tbl).file = some ((tbl.filter (rowSelectedE f)).insertionSort ordE)) := by
  refine ⟨by simp [can_export_all, export_limit], by decide, ?_, ?_⟩
  · intro h
    have hc : can_export_all (tbl.filter (rowSelectedE f)).length = false := by
      simp only [can_export_all, export_limit, decide_eq_false_iff_not, not_le]
      omega
    simp [exportAll, hc]
  · intro h
    have hc : can_export_all (tbl.filter (rowSelectedE f)).length = true := by
      simpa [can_export_all, export_limit] using h
    simp [exportAll, hc]

/-- Witness for C5: the empty result is exportable; a result one row
above the ceiling warns and produces no file. -/
theorem C5_export_gate_witness :
    can_export_all 200000 = true ∧
    (exportAll filtrosPadrao []).warned = false ∧
    (exportAll filtrosPadrao []).file = some [] ∧
    (exportAll filtrosPadrao bigTbl).warned = true ∧
    (exportAll filtrosPadrao bigTbl).file = none := by
  have hsel : rowSelectedE filtrosPadrao rowCampinas = true := by
    norm_num [rowSelectedE, buildWhere, filtrosPadrao, evalCondE, sqlBetween, sqlGe,
      SQLNum.le, rowCampinas, enrichRow, refCampinas20, imCampinas, sql2pv, pv2sql,
      to_numeric_coerce, PValue.div, List.find?, List.all]
  have hbig : (bigTbl.filter (rowSelectedE filtrosPadrao)).length > 200000 := by
    have : bigTbl.filter (rowSelectedE filtrosPadrao) = bigTbl := by
      rw [List.filter_eq_self]
      intro a ha
      rw [List.eq_of_mem_replicate ha]
      exact hsel
    rw [this]
    unfold bigTbl
    rw [List.length_replicate]
    norm_num
  have hsmall : (([] : List Enriched).filter (rowSelectedE filtrosPadrao)).length ≤ 200000 := by
    simp
  refine ⟨(C5_export_gate 200000 filtrosPadrao []).2.1,
    ((C5_export_gate 0 filtrosPadrao []).2.2.2 hsmall).1,
    ((C5_export_gate 0 filtrosPadrao []).2.2.2 hsmall).2,
    ((C5_export_gate 0 filtrosPadrao bigTbl).2.2.1 hbig).1,
    ((C5_export_gate 0 filtrosPadrao bigTbl).2.2.1 hbig).2⟩

theorem detLookup_length_le_one (tbl : List Enriched) (c : String)
    (huniq : tbl.Pairwise (fun a b => a.base.codigo_imovel ≠ b.base.codigo_imovel)) :
    (detLookup tbl c).length ≤ 1 := by
  induction tbl with
  | nil => simp [detLookup]
  | cons a t ih =>
    rcases List.pairwise_cons.mp huniq with ⟨ha, ht⟩
    by_cases hc : (a.base.codigo_imovel == c) = true
    · have hnil : t.filter (fun r => r.base.codigo_imovel == c) = [] := by
        rw [List.filter_eq_nil_iff]
        intro b hb
        have hbc : b.base.codigo_imovel ≠ c := by
          intro hh
          exact ha b hb ((beq_iff_eq.mp hc).trans hh.symm)
        simp [hbc]
      simp [detLookup, List.filter_cons, hc, hnil]
    · have := ih ht
      simpa [detLookup, List.filter_cons, hc] using this

/-- Claim C6: under the primary-key invariant (property codes pairwise
distinct), detail lookup by exact code returns at most one record, and
an absent code yields the explicit not-found outcome rather than an
error. -/
theorem C6_detail_lookup (tbl : List Enriched) (c : String)
    (huniq : tbl.Pairwise (fun a b => a.base.codigo_imovel ≠ b.base.codigo_imovel)) :
    (detLookup tbl c).length ≤ 1 ∧
    ((∀ r ∈ tbl, r.base.codigo_imovel ≠ c) → det tbl c = DetResult.notFound) ∧
    (det tbl c = DetResult.notFound ∨
      ∃ rows, det tbl c = DetResult.found rows ∧ rows.length ≤ 1) := by
  refine ⟨detLookup_length_le_one tbl c huniq, ?_, ?_⟩
  · intro h
    have hnil : detLookup tbl c = [] := by
      rw [detLookup, List.filter_eq_nil_iff]
      intro r hr
      simpa using h r hr
    simp [det, hnil]
  · by_cases he : (detLookup tbl c).isEmpty
    · exact Or.inl (by simp [det, he])
    · exact Or.inr ⟨detLookup tbl c, by simp [det, he],
        detLookup_length_le_one tbl c huniq⟩

/-- Witness for C6: a two-row table with distinct codes; an unknown code
is reported not-found, a present code returns a single row. -/
theorem C6_detail_lookup_witness :
    det [rowCampinas, rowSegundo] "0099999" = DetResult.notFound ∧
    (detLookup [rowCampinas, rowSegundo] "0010001").length ≤ 1 := by
  have huniq : ([rowCampinas, rowSegundo]).Pairwise
      (fun a b => a.base.codigo_imovel ≠ b.base.codigo_imovel) := by
    simp [List.pairwise_cons, rowCampinas, rowSegundo, enrichRow, imCampinas]
  refine ⟨(C6_detail_lookup [rowCampinas, rowSegundo] "0099999" huniq).2.1 ?_,
    (C6_detail_lookup [rowCampinas, rowSegundo] "0010001" huniq).1⟩
  intro r hr
  rcases List.mem_cons.mp hr with h | h
  · subst h
    show imCampinas.codigo_imovel ≠ "0099999"
    decide
  · rcases List.mem_singleton.mp h with h2
    subst h2
    show ({ imCampinas with codigo_imovel := "0010003" } : Imovel).codigo_imovel ≠ "0099999"
    decide

/-- Claim C9: for every filter selection, enriched-table prospection
results are ordered by area-in-modules descending with total area
descending as tie-break, and base-table results by total area
descending alone (under the storage order, which puts NULL last in a
descending sort). -/
theorem C9_result_ordering (f : Filtros) (fb : FiltrosBase) (page pageSize : ℕ)
    (tblE : List Enriched) (tblB : List Imovel) :
    (prospQueryE f page pageSize tblE).Pairwise (fun a b =>
      SQLNum.le b.area_em_mf a.area_em_mf = true ∧
      (a.area_em_mf = b.area_em_mf →
        SQLNum.le b.base.area_total_ha a.base.area_total_ha = true)) ∧
    (prospQueryB fb page pageSize tblB).Pairwise (fun a b =>
      SQLNum.le b.area_total_ha a.area_total_ha = true) := by
  constructor
  · have hs : ((tblE.filter (rowSelectedE f)).insertionSort ordE).Pairwise ordE := by
      haveI : IsTotal Enriched ordE := ⟨ordE_total⟩
      haveI : IsTrans Enriched ordE := ⟨fun a b c => ordE_trans⟩
      exact List.sorted_insertionSort ordE _
    have hp : (prospQueryE f page pageSize tblE).Pairwise ordE := by
      unfold prospQueryE
      exact ((hs.sublist (List.drop_sublist _ _)).sublist (List.take_sublist _ _))
    refine hp.imp ?_
    intro a b h
    unfold ordE ordEb at h
    by_cases hab : a.area_em_mf = b.area_em_mf
    · rw [if_pos hab] at h
      exact ⟨by rw [hab]; exact SQLNum.le_rfl _, fun _ => h⟩
    · rw [if_neg hab] at h
      exact ⟨h, fun hh => absurd hh hab⟩
  · have hs : ((tblB.filter (rowSelectedB fb)).insertionSort ordB).Pairwise ordB := by
      haveI : IsTotal Imovel ordB := ⟨ordB_total⟩
      haveI : IsTrans Imovel ordB := ⟨fun a b c => ordB_trans⟩
      exact List.sorted_insertionSort ordB _
    have hp : (prospQueryB fb page pageSize tblB).Pairwise ordB := by
      unfold prospQueryB
      exact ((hs.sublist (List.drop_sublist _ _)).sublist (List.take_sublist _ _))
    exact hp.imp (fun h => h)

theorem enrich_semMF_null (ref : List RefRow) (ims : List Imovel) (r : Enriched)
    (hr : r ∈ enrich ref ims) (hc : r.classe_tamanho = "Sem MF") :
    r.area_em_mf = SQLNum.null := by
  obtain ⟨im, him, heq⟩ := List.mem_map.mp hr
  subst heq
  obtain ⟨m, hb, hmf, hamf, hcls⟩ := enrichRow_def ref im
  rw [hcls] at hc
  rw [hamf, (classificar_eq_semMF_iff _).mp hc]
  rfl

/-- Claim C10: in enriched mode the WHERE builder unconditionally
includes the `area_em_mf BETWEEN` conjunct, so no result row has a null
area-in-modules, and selecting size class "Sem MF" always returns zero
rows from the enriched table. -/
theorem C10_semMF_unreachable (f : Filtros) (ref : List RefRow) (ims : List Imovel)
    (page pageSize : ℕ) (tbl : List Enriched) :
    Cond.amfBetween f.area_mf_min f.area_mf_max ∈ buildWhere f ∧
    (∀ r ∈ prospQueryE f page pageSize tbl, r.area_em_mf ≠ SQLNum.null) ∧
    (f.classe = "Sem MF" → prospQueryE f page pageSize (enrich ref ims) = []) := by
  refine ⟨by simp [buildWhere], ?_, ?_⟩
  · intro r hr
    unfold prospQueryE at hr
    have hr2 : r ∈ (tbl.filter (rowSelectedE f)).insertionSort ordE :=
      List.mem_of_mem_drop (List.mem_of_mem_take hr)
    have hr3 : r ∈ tbl.filter (rowSelectedE f) :=
      (List.perm_insertionSort ordE _).mem_iff.mp hr2
    have hsel : rowSelectedE f r = true := (List.mem_filter.mp hr3).2
    have hbet : evalCondE r (Cond.amfBetween f.area_mf_min f.area_mf_max) = true :=
      List.all_eq_true.mp hsel _ (by simp [buildWhere])
    intro hnull
    rw [evalCondE, hnull] at hbet
    exact absurd hbet (by simp [sqlBetween])
  · intro hc
    have hnil : (enrich ref ims).filter (rowSelectedE f) = [] := by
      rw [List.filter_eq_nil_iff]
      intro r hr hsel
      have hcls : evalCondE r (Cond.classeEq f.classe) = true :=
        List.all_eq_true.mp hsel _ (by
          simp [buildWhere, hc])
      have hbet : evalCondE r (Cond.amfBetween f.area_mf_min f.area_mf_max) = true :=
        List.all_eq_true.mp hsel _ (by simp [buildWhere])
      rw [evalCondE, beq_iff_eq, hc] at hcls
      have hnull : r.area_em_mf = SQLNum.null := enrich_semMF_null ref ims r hr hcls
      rw [evalCondE, hnull] at hbet
      exact absurd hbet (by simp [sqlBetween])
    unfold prospQueryE
    rw [hnil]
    simp

/-- Witness for C10: the "Sem MF" class filter on a one-row enriched
table whose single record has a null area-in-modules returns no rows. -/
theorem C10_semMF_unreachable_witness :
    Cond.amfBetween 0 10 ∈ buildWhere filtrosSemMF ∧
    prospQueryE filtrosSemMF 1 100 (enrich refOutra [imCampinas]) = [] :=
  ⟨(C10_semMF_unreachable filtrosSemMF refOutra [imCampinas] 1 100 []).1,
   (C10_semMF_unreachable filtrosSemMF refOutra [imCampinas] 1 100 []).2.2 rfl⟩

end AliRural
